import Mathlib

/-!
Shallow embedding of the portfolio site's JavaScript modules
(contact-form.js, gallery.js, projects.js, the navigation script and the
theme-toggle script), together with theorems settling the specified
properties. Strings are modelled as Lean `String` (a wrapper around
`List Char`); DOM effects are modelled as explicit state records.
-/

namespace Portfolio

/-- The character class of JavaScript's `\s` (and of `String.prototype.trim`)
restricted to the characters that can occur in this development: the ASCII
whitespace characters plus no-break space, BOM and the Unicode line/paragraph
separators. -/
def isJsWhitespace (c : Char) : Bool :=
  c = ' ' || c = '\t' || c = '\n' || c = '\x0b' || c = '\x0c' || c = '\r' ||
  c = ' ' || c = ' ' || c = ' ' || c = '﻿'

/-- One item of an anchored regular expression of the restricted shape used in
contact-form.js: a literal character, or a one-or-more repetition of a
character class. -/
inductive RItem where
  | lit (c : Char)
  | plus (p : Char → Bool)

/-- Backtracking for a `plus` item: consume at least one character satisfying
`p`, and after every consumed character either hand the rest to the
continuation `k` (the matcher for the remaining items) or keep consuming. -/
def matchPlus (p : Char → Bool) (k : List Char → Bool) : List Char → Bool
  | [] => false
  | x :: xs => p x && (k xs || matchPlus p k xs)

/-- Backtracking matcher for an anchored sequence of `RItem`s: `plus p`
consumes at least one character satisfying `p` and may stop or continue at
every step, so the whole function decides the language of `^ i1 i2 ... in $`. -/
def matchItems : List RItem → List Char → Bool
  | [], s => s.isEmpty
  | RItem.lit _ :: _, [] => false
  | RItem.lit c :: its, x :: xs => c = x && matchItems its xs
  | RItem.plus p :: its, s => matchPlus p (matchItems its) s

namespace ContactForm

/-- JavaScript `value.trim()` on the underlying character list: remove leading
and trailing whitespace. -/
def jsTrimList (l : List Char) : List Char :=
  ((l.dropWhile isJsWhitespace).reverse.dropWhile isJsWhitespace).reverse

/-- JavaScript `value.trim()`. -/
def jsTrim (s : String) : String := ⟨jsTrimList s.data⟩

/-- `fieldName.charAt(0).toUpperCase() + fieldName.slice(1)`. -/
def capitalizeList : List Char → List Char
  | [] => []
  | c :: cs => c.toUpper :: cs

/-- `fieldName.charAt(0).toUpperCase() + fieldName.slice(1)` on `String`. -/
def capitalize (s : String) : String := ⟨capitalizeList s.data⟩

/-- The character class `[^\s@]` of the email pattern. -/
def emailAtom (c : Char) : Bool := !isJsWhitespace c && c ≠ '@'

/-- The email pattern `/^[^\s@]+@[^\s@]+\.[^\s@]+$/` as an `RItem` sequence. -/
def emailItems : List RItem :=
  [RItem.plus emailAtom, RItem.lit '@', RItem.plus emailAtom,
   RItem.lit '.', RItem.plus emailAtom]

/-- `FORM_CONFIG.validationRules.email.pattern.test`. -/
def emailPatternTest (s : String) : Bool := matchItems emailItems s.data

/-- The character class `[a-zA-Z\s]` of the name pattern. -/
def nameAtom (c : Char) : Bool :=
  ('a' ≤ c && c ≤ 'z') || ('A' ≤ c && c ≤ 'Z') || isJsWhitespace c

/-- The name pattern `/^[a-zA-Z\s]+$/` as an `RItem` sequence. -/
def nameItems : List RItem := [RItem.plus nameAtom]

/-- `FORM_CONFIG.validationRules.name.pattern.test`. -/
def namePatternTest (s : String) : Bool := matchItems nameItems s.data

/-- One rule record of `FORM_CONFIG.validationRules`. Absent `minLength`,
`maxLength` and `pattern` properties are `none`; in the source a present
`minLength`/`maxLength` is a positive number, so JavaScript's truthiness test
`rules.minLength && ...` is modelled by presence of the option. -/
structure Rules where
  required : Bool
  minLength : Option Nat
  maxLength : Option Nat
  pattern : Option (String → Bool)
  message : String

/-- `FORM_CONFIG.validationRules.name`. -/
def nameRules : Rules :=
  { required := true, minLength := some 2, maxLength := none,
    pattern := some namePatternTest,
    message := "Please enter a valid name (letters only, min 2 characters)" }

/-- `FORM_CONFIG.validationRules.email`. -/
def emailRules : Rules :=
  { required := true, minLength := none, maxLength := none,
    pattern := some emailPatternTest,
    message := "Please enter a valid email address" }

/-- `FORM_CONFIG.validationRules.subject`. -/
def subjectRules : Rules :=
  { required := true, minLength := some 5, maxLength := none,
    pattern := none,
    message := "Subject must be at least 5 characters long" }

/-- `FORM_CONFIG.validationRules.message`. -/
def messageRules : Rules :=
  { required := true, minLength := some 10, maxLength := some 1000,
    pattern := none,
    message := "Message must be between 10 and 1000 characters" }

/-- The property lookup `FORM_CONFIG.validationRules[fieldName]`. -/
def validationRules (fieldName : String) : Option Rules :=
  if fieldName = "name" then some nameRules
  else if fieldName = "email" then some emailRules
  else if fieldName = "subject" then some subjectRules
  else if fieldName = "message" then some messageRules
  else none

/-- The `{ isValid, message }` object returned by `validateField`. -/
structure VResult where
  isValid : Bool
  message : String
deriving DecidableEq

/-- `validateField` from contact-form.js, on the field's name and raw value:
trim the value; if no rules exist the field is valid; then the required,
minimum-length, maximum-length and pattern checks in source order. -/
def validateField (fieldName : String) (value : String) : VResult :=
  let fieldValue := jsTrim value
  match validationRules fieldName with
  | none => { isValid := true, message := "" }
  | some rules =>
      if rules.required && fieldValue = "" then
        { isValid := false, message := capitalize fieldName ++ " is required" }
      else if (match rules.minLength with
               | some m => decide (fieldValue.length < m)
               | none => false) then
        { isValid := false, message := rules.message }
      else if (match rules.maxLength with
               | some m => decide (m < fieldValue.length)
               | none => false) then
        { isValid := false, message := rules.message }
      else if (match rules.pattern with
               | some p => !p fieldValue
               | none => false) then
        { isValid := false, message := rules.message }
      else
        { isValid := true, message := "" }

end ContactForm

namespace Theme

/-- The observable state of the theme controller: the `data-theme` attribute of
the document element (`none` models an absent attribute), the value stored in
local storage under the key `portfolio-theme` (`none` models no stored value),
and the toggle icon text. -/
structure ThemeState where
  attr : Option String
  stored : Option String
  icon : String
deriving DecidableEq

/-- `applyTheme(theme)`: remove the `data-theme` attribute; if the theme is
`'light'`, set `data-theme="light"` and the sun icon, otherwise (dark is the
default) leave the attribute absent and set the moon icon; always persist the
theme to local storage. -/
def applyTheme (theme : String) (s : ThemeState) : ThemeState :=
  if theme = "light" then
    { s with attr := some "light", stored := some theme, icon := "sun" }
  else
    { s with attr := none, stored := some theme, icon := "moon" }

/-- `toggleTheme()`: read the current `data-theme` attribute; if it is
`'light'` the new theme is `'dark'`, otherwise `'light'`; apply the new
theme. -/
def toggleTheme (s : ThemeState) : ThemeState :=
  let newTheme := if s.attr = some "light" then "dark" else "light"
  applyTheme newTheme s

/-- `handleSystemThemeChange(e)`: only when no value is stored under
`portfolio-theme`, apply the OS theme (`e.matches` means the OS prefers
light). -/
def handleSystemThemeChange (osPrefersLight : Bool) (s : ThemeState) :
    ThemeState :=
  if s.stored = none then
    applyTheme (if osPrefersLight then "light" else "dark") s
  else
    s

/-- `getPreferredTheme()`: the stored theme if any, else the OS preference,
else dark. -/
def getPreferredTheme (osPrefersLight : Bool) (s : ThemeState) : String :=
  match s.stored with
  | some savedTheme => savedTheme
  | none => if osPrefersLight then "light" else "dark"

/-- The theme resolution performed by `initThemeToggle()` on page load:
apply the preferred theme. -/
def initThemeToggle (osPrefersLight : Bool) (s : ThemeState) : ThemeState :=
  applyTheme (getPreferredTheme osPrefersLight s) s

end Theme

namespace Nav

/-- A `section[id]` element: its id, `offsetTop` and `offsetHeight`. -/
structure Sec where
  id : String
  offsetTop : Int
  offsetHeight : Int

/-- A navigation link: its `href` attribute and whether it carries the
`active` class. -/
structure NavLink where
  href : String
  active : Bool
deriving DecidableEq

/-- `updateActiveLink(activeId)`: every link loses the `active` class and
regains it exactly when its `href` equals `activeId`. -/
def updateActiveLink (links : List NavLink) (activeId : String) :
    List NavLink :=
  links.map fun l => { l with active := l.href == activeId }

/-- `handleScroll()`: for each section in document order, if the scroll
position lies in `[offsetTop - navbarHeight - 100, offsetTop - navbarHeight
- 100 + offsetHeight)`, mark the link whose `href` is `'#' + id` active.
Returns the links and whether the navbar gets the `scrolled` class. -/
def handleScroll (navbarHeight scrollPosition : Int) (sections : List Sec)
    (links : List NavLink) : List NavLink × Bool :=
  let scrolled := scrollPosition > 50
  let links' := sections.foldl
    (fun ls sec =>
      let sectionTop := sec.offsetTop - navbarHeight - 100
      let sectionBottom := sectionTop + sec.offsetHeight
      if sectionTop ≤ scrollPosition ∧ scrollPosition < sectionBottom then
        updateActiveLink ls ("#" ++ sec.id)
      else ls)
    links
  (links', scrolled)

end Nav

namespace Loader

/-- One child of the grid container in a loader's final state: a rendered
record card (records are abstracted to their payload index content), or the
error block with the retry button that replaces the grid contents when a load
fails. The transient loading message of projects.js never survives an
invocation and does not appear in final states. -/
inductive GridEntry where
  | card (r : Nat)
  | errorRetry
deriving DecidableEq

/-- The fetch outcome an invocation observes when it performs a fetch:
`ok payload` models a successful response whose parsed array is `payload`
(`data.projects || []` and `data.images || []` make an absent array the empty
payload); `err` models a non-success HTTP status, a network error or a JSON
parse error, all of which throw into the `catch` block. -/
inductive Fetch where
  | ok (payload : List Nat)
  | err
deriving DecidableEq

/-- The state of one loader: the loaded counter (`projectsLoaded` /
`imagesLoaded`), the in-memory array (`allProjects` / `allImages`), the grid
container's children, whether the load-more control is hidden
(`display: none`), and an instrumentation counter of performed fetches. -/
structure St where
  loaded : Nat
  all : List Nat
  grid : List GridEntry
  loadMoreHidden : Bool
  fetchCount : Nat
deriving DecidableEq

/-- `projectsPerLoad` and `imagesPerLoad`. -/
def perLoad : Nat := 6

/-- The state before any invocation: counters zero, arrays empty, grid empty,
load-more control visible. -/
def initSt : St :=
  { loaded := 0, all := [], grid := [], loadMoreHidden := false,
    fetchCount := 0 }

/-- JavaScript `all.slice(loaded, Math.min(loaded + count, all.length))`: the
records rendered by one invocation. -/
def sliceToLoad (all : List Nat) (loaded count : Nat) : List Nat :=
  (all.drop loaded).take (min (loaded + count) all.length - loaded)

/-- The shared tail of `loadProjects` / `loadImages` after the in-memory array
`all` is settled and the grid holds `grid0`: render the slice appending one
card per record and bumping the loaded counter, then hide the load-more
control if every record is loaded (the control is never re-shown). -/
def renderAndHide (s : St) (all : List Nat) (grid0 : List GridEntry)
    (fetchCount count : Nat) : St :=
  let slice := sliceToLoad all s.loaded count
  let loaded := s.loaded + slice.length
  { loaded := loaded, all := all,
    grid := grid0 ++ slice.map GridEntry.card,
    loadMoreHidden := if all.length ≤ loaded then true else s.loadMoreHidden,
    fetchCount := fetchCount }

/-- `loadProjects(count)` from projects.js: when the in-memory array is empty,
fetch; on failure the `catch` block replaces the grid contents with the error
block and the retry button; on success the array becomes the reversed payload
(newest first) and the grid is cleared before rendering. When the array is
nonempty no fetch happens and rendering appends to the existing grid. -/
def loadProjects (f : Fetch) (count : Nat) (s : St) : St :=
  if s.all.isEmpty then
    match f with
    | Fetch.err =>
        { s with grid := [GridEntry.errorRetry],
                 fetchCount := s.fetchCount + 1 }
    | Fetch.ok payload =>
        renderAndHide s payload.reverse [] (s.fetchCount + 1) count
  else
    renderAndHide s s.all s.grid s.fetchCount count

/-- `loadImages(count)` from gallery.js: identical to `loadProjects` except
that the payload is not reversed and the grid is not cleared on a successful
first fetch (gallery.js shows no loading message and never clears the grid in
`loadImages`). -/
def loadImages (f : Fetch) (count : Nat) (s : St) : St :=
  if s.all.isEmpty then
    match f with
    | Fetch.err =>
        { s with grid := [GridEntry.errorRetry],
                 fetchCount := s.fetchCount + 1 }
    | Fetch.ok payload =>
        renderAndHide s payload s.grid (s.fetchCount + 1) count
  else
    renderAndHide s s.all s.grid s.fetchCount count

/-- The public invocations of a loader: `load` / `loadMore` both call the load
function with the default count, `reload` zeroes the counter, empties the
array, clears the grid (without touching the load-more control) and calls the
load function. -/
inductive Ev where
  | load
  | loadMore
  | reload
deriving DecidableEq

/-- One invocation of the projects loader when the fetch, if performed,
succeeds with the fixed static payload `server`. -/
def stepProjects (server : List Nat) (s : St) : Ev → St
  | Ev.load => loadProjects (Fetch.ok server) perLoad s
  | Ev.loadMore => loadProjects (Fetch.ok server) perLoad s
  | Ev.reload =>
      loadProjects (Fetch.ok server) perLoad
        { s with loaded := 0, all := [], grid := [] }

/-- One invocation of the gallery loader when the fetch, if performed,
succeeds with the fixed static payload `server`. -/
def stepGallery (server : List Nat) (s : St) : Ev → St
  | Ev.load => loadImages (Fetch.ok server) perLoad s
  | Ev.loadMore => loadImages (Fetch.ok server) perLoad s
  | Ev.reload =>
      loadImages (Fetch.ok server) perLoad
        { s with loaded := 0, all := [], grid := [] }

/-- The projects-loader state after a sequence of invocations from the fresh
page state, every fetch succeeding with payload `server`. -/
def runProjects (server : List Nat) (evs : List Ev) : St :=
  evs.foldl (stepProjects server) initSt

/-- The gallery-loader state after a sequence of invocations from the fresh
page state, every fetch succeeding with payload `server`. -/
def runGallery (server : List Nat) (evs : List Ev) : St :=
  evs.foldl (stepGallery server) initSt

end Loader

/-! Helper lemmas. -/

namespace ContactForm

lemma jsTrimList_eq (l : List Char) :
    jsTrimList l =
      List.rdropWhile isJsWhitespace (List.dropWhile isJsWhitespace l) := rfl

lemma dropWhile_rdropWhile_dropWhile (p : Char → Bool) (l : List Char) :
    List.dropWhile p (List.rdropWhile p (List.dropWhile p l)) =
      List.rdropWhile p (List.dropWhile p l) := by
  rw [List.dropWhile_eq_self_iff]
  intro hl
  have hpre := List.rdropWhile_prefix p (List.dropWhile p l)
  have hlen : 0 < (List.dropWhile p l).length :=
    lt_of_lt_of_le hl hpre.length_le
  have hget := List.IsPrefix.getElem hpre hl
  have h2 := List.dropWhile_get_zero_not p l hlen
  simp only [List.get_eq_getElem] at h2 ⊢
  rw [hget]
  exact h2

lemma jsTrimList_idem (l : List Char) :
    jsTrimList (jsTrimList l) = jsTrimList l := by
  rw [jsTrimList_eq, jsTrimList_eq, dropWhile_rdropWhile_dropWhile,
    List.rdropWhile_idempotent]

lemma jsTrim_idem (s : String) : jsTrim (jsTrim s) = jsTrim s :=
  congrArg String.mk (jsTrimList_idem s.data)

lemma jsTrimList_eq_nil (l : List Char) (h : l.all isJsWhitespace = true) :
    jsTrimList l = [] := by
  rw [jsTrimList_eq]
  have h1 : List.dropWhile isJsWhitespace l = [] :=
    List.dropWhile_eq_nil_iff.mpr (by simpa [List.all_eq_true] using h)
  rw [h1]
  simp [List.rdropWhile]

lemma jsTrim_eq_empty (s : String) (h : s.data.all isJsWhitespace = true) :
    jsTrim s = "" :=
  congrArg String.mk (jsTrimList_eq_nil s.data h)

end ContactForm

namespace Loader

lemma isEmpty_false_of_ne {l : List Nat} (h : l ≠ []) : l.isEmpty = false := by
  simp [List.isEmpty_iff, h]

lemma loadProjects_of_ne (f : Fetch) (count : Nat) (s : St)
    (h : s.all ≠ []) :
    loadProjects f count s = renderAndHide s s.all s.grid s.fetchCount count := by
  simp [loadProjects, isEmpty_false_of_ne h]

lemma loadImages_of_ne (f : Fetch) (count : Nat) (s : St)
    (h : s.all ≠ []) :
    loadImages f count s = renderAndHide s s.all s.grid s.fetchCount count := by
  simp [loadImages, isEmpty_false_of_ne h]

lemma renderAndHide_hidden_of_complete (s : St) (a : List Nat)
    (g : List GridEntry) (fc count : Nat)
    (h : (renderAndHide s a g fc count).loaded =
      (renderAndHide s a g fc count).all.length) :
    (renderAndHide s a g fc count).loadMoreHidden = true := by
  simp only [renderAndHide] at h ⊢
  rw [if_pos (le_of_eq h.symm)]

lemma loadProjects_ok_hidden_of_complete (server : List Nat) (count : Nat)
    (s : St)
    (h : (loadProjects (Fetch.ok server) count s).loaded =
      (loadProjects (Fetch.ok server) count s).all.length) :
    (loadProjects (Fetch.ok server) count s).loadMoreHidden = true := by
  by_cases he : s.all.isEmpty
  · simp only [loadProjects, he, if_pos] at h ⊢
    exact renderAndHide_hidden_of_complete _ _ _ _ _ h
  · simp only [loadProjects, he, if_neg, Bool.false_eq_true,
      if_false] at h ⊢
    exact renderAndHide_hidden_of_complete _ _ _ _ _ h

lemma loadImages_ok_hidden_of_complete (server : List Nat) (count : Nat)
    (s : St)
    (h : (loadImages (Fetch.ok server) count s).loaded =
      (loadImages (Fetch.ok server) count s).all.length) :
    (loadImages (Fetch.ok server) count s).loadMoreHidden = true := by
  by_cases he : s.all.isEmpty
  · simp only [loadImages, he, if_pos] at h ⊢
    exact renderAndHide_hidden_of_complete _ _ _ _ _ h
  · simp only [loadImages, he, Bool.false_eq_true, if_false] at h ⊢
    exact renderAndHide_hidden_of_complete _ _ _ _ _ h

lemma last_step_foldl {σ α : Type} (f : σ → α → σ) (P : σ → Prop)
    (hstep : ∀ s a, P (f s a)) :
    ∀ (evs : List α) (s : σ), evs ≠ [] → P (evs.foldl f s) := by
  intro evs
  induction evs with
  | nil => intro s h; exact absurd rfl h
  | cons a t ih =>
      intro s _
      cases t with
      | nil => simpa using hstep s a
      | cons b u => exact ih (f s a) (by simp)

lemma empty_payload_run_projects :
    ∀ (evs : List Ev) (s : St), s.all = [] →
      (evs.foldl (stepProjects []) s).all = [] ∧
      (evs.foldl (stepProjects []) s).fetchCount =
        s.fetchCount + evs.length := by
  intro evs
  induction evs with
  | nil => intro s hs; simpa using hs
  | cons e t ih =>
      intro s hs
      have hstep : (stepProjects [] s e).all = [] ∧
          (stepProjects [] s e).fetchCount = s.fetchCount + 1 := by
        cases e <;>
          simp [stepProjects, loadProjects, hs, renderAndHide, sliceToLoad]
      obtain ⟨h1, h2⟩ := hstep
      obtain ⟨ih1, ih2⟩ := ih (stepProjects [] s e) h1
      refine ⟨ih1, ?_⟩
      rw [List.foldl_cons] at *
      rw [ih2, h2, List.length_cons]
      omega

lemma empty_payload_run_gallery :
    ∀ (evs : List Ev) (s : St), s.all = [] →
      (evs.foldl (stepGallery []) s).all = [] ∧
      (evs.foldl (stepGallery []) s).fetchCount =
        s.fetchCount + evs.length := by
  intro evs
  induction evs with
  | nil => intro s hs; simpa using hs
  | cons e t ih =>
      intro s hs
      have hstep : (stepGallery [] s e).all = [] ∧
          (stepGallery [] s e).fetchCount = s.fetchCount + 1 := by
        cases e <;>
          simp [stepGallery, loadImages, hs, renderAndHide, sliceToLoad]
      obtain ⟨h1, h2⟩ := hstep
      obtain ⟨ih1, ih2⟩ := ih (stepGallery [] s e) h1
      refine ⟨ih1, ?_⟩
      rw [List.foldl_cons] at *
      rw [ih2, h2, List.length_cons]
      omega

lemma noReload_run_projects (server A : List Nat) (hA : A ≠ []) :
    ∀ (evs : List Ev), Ev.reload ∉ evs → ∀ s : St, s.all = A →
      (evs.foldl (stepProjects server) s).all = A ∧
      (evs.foldl (stepProjects server) s).fetchCount = s.fetchCount := by
  intro evs
  induction evs with
  | nil => intro _ s hs; simpa using hs
  | cons e t ih =>
      intro hnr s hs
      rw [List.mem_cons] at hnr
      push_neg at hnr
      obtain ⟨hne, hnr'⟩ := hnr
      have hcode : s.all ≠ [] := by rw [hs]; exact hA
      have hstep : stepProjects server s e =
          renderAndHide s s.all s.grid s.fetchCount perLoad := by
        cases e with
        | load => exact loadProjects_of_ne (Fetch.ok server) perLoad s hcode
        | loadMore => exact loadProjects_of_ne (Fetch.ok server) perLoad s hcode
        | reload => exact absurd rfl (Ne.symm hne)
      have hall : (stepProjects server s e).all = A := by
        rw [hstep]; simpa [renderAndHide] using hs
      have hfc : (stepProjects server s e).fetchCount = s.fetchCount := by
        rw [hstep]; simp [renderAndHide]
      obtain ⟨ih1, ih2⟩ := ih hnr' (stepProjects server s e) hall
      rw [List.foldl_cons]
      exact ⟨ih1, by rw [ih2, hfc]⟩

lemma noReload_run_gallery (server A : List Nat) (hA : A ≠ []) :
    ∀ (evs : List Ev), Ev.reload ∉ evs → ∀ s : St, s.all = A →
      (evs.foldl (stepGallery server) s).all = A ∧
      (evs.foldl (stepGallery server) s).fetchCount = s.fetchCount := by
  intro evs
  induction evs with
  | nil => intro _ s hs; simpa using hs
  | cons e t ih =>
      intro hnr s hs
      rw [List.mem_cons] at hnr
      push_neg at hnr
      obtain ⟨hne, hnr'⟩ := hnr
      have hcode : s.all ≠ [] := by rw [hs]; exact hA
      have hstep : stepGallery server s e =
          renderAndHide s s.all s.grid s.fetchCount perLoad := by
        cases e with
        | load => exact loadImages_of_ne (Fetch.ok server) perLoad s hcode
        | loadMore => exact loadImages_of_ne (Fetch.ok server) perLoad s hcode
        | reload => exact absurd rfl (Ne.symm hne)
      have hall : (stepGallery server s e).all = A := by
        rw [hstep]; simpa [renderAndHide] using hs
      have hfc : (stepGallery server s e).fetchCount = s.fetchCount := by
        rw [hstep]; simp [renderAndHide]
      obtain ⟨ih1, ih2⟩ := ih hnr' (stepGallery server s e) hall
      rw [List.foldl_cons]
      exact ⟨ih1, by rw [ih2, hfc]⟩

end Loader

/-! Theorems for the claims. -/

/-- C1: one invocation of a loader renders exactly the slice of the in-memory
array from the current loaded count up to `min(loaded + pageSize, total)`,
appended after the already rendered cards, and the loaded count advances by
the size of that slice — when the array is already in memory this holds for
any fetch outcome, and on a first successful load it holds for the freshly
fetched array (reversed in the projects loader). Successive slices therefore
start where the previous one ended, so no record is ever rendered twice
across a sequence of load-more invocations. -/
theorem c1_load_renders_next_slice (s : Loader.St) (p : List Nat) :
    (s.all ≠ [] → ∀ f : Loader.Fetch,
      (Loader.loadProjects f Loader.perLoad s).grid =
          s.grid ++ (Loader.sliceToLoad s.all s.loaded
            Loader.perLoad).map Loader.GridEntry.card ∧
      (Loader.loadProjects f Loader.perLoad s).loaded =
          s.loaded + (Loader.sliceToLoad s.all s.loaded
            Loader.perLoad).length ∧
      (Loader.loadImages f Loader.perLoad s).grid =
          s.grid ++ (Loader.sliceToLoad s.all s.loaded
            Loader.perLoad).map Loader.GridEntry.card ∧
      (Loader.loadImages f Loader.perLoad s).loaded =
          s.loaded + (Loader.sliceToLoad s.all s.loaded
            Loader.perLoad).length) ∧
    (s.all = [] →
      (Loader.loadProjects (Loader.Fetch.ok p) Loader.perLoad s).grid =
          (Loader.sliceToLoad p.reverse s.loaded
            Loader.perLoad).map Loader.GridEntry.card ∧
      (Loader.loadProjects (Loader.Fetch.ok p) Loader.perLoad s).loaded =
          s.loaded + (Loader.sliceToLoad p.reverse s.loaded
            Loader.perLoad).length ∧
      (Loader.loadImages (Loader.Fetch.ok p) Loader.perLoad s).grid =
          s.grid ++ (Loader.sliceToLoad p s.loaded
            Loader.perLoad).map Loader.GridEntry.card ∧
      (Loader.loadImages (Loader.Fetch.ok p) Loader.perLoad s).loaded =
          s.loaded + (Loader.sliceToLoad p s.loaded
            Loader.perLoad).length) := by
  constructor
  · intro hne f
    rw [Loader.loadProjects_of_ne f Loader.perLoad s hne,
      Loader.loadImages_of_ne f Loader.perLoad s hne]
    simp [Loader.renderAndHide]
  · intro he
    have hempty : s.all.isEmpty = true := by simp [List.isEmpty_iff, he]
    simp [Loader.loadProjects, Loader.loadImages, hempty,
      Loader.renderAndHide]

/-- C1 witness: from a state with eight records in memory and two already
rendered, a load-more invocation with a failing fetch outcome appends exactly
records 2 to 7 and advances the counter to 8; from the fresh state a first
successful load of `[1, 2, 3]` renders the whole reversed payload. -/
theorem c1_load_renders_next_slice_witness :
    ((Loader.loadProjects Loader.Fetch.err Loader.perLoad
        { loaded := 2, all := [9, 8, 7, 6, 5, 4, 3, 2],
          grid := [Loader.GridEntry.card 9, Loader.GridEntry.card 8],
          loadMoreHidden := false, fetchCount := 1 }).grid =
      [Loader.GridEntry.card 9, Loader.GridEntry.card 8] ++
        (Loader.sliceToLoad [9, 8, 7, 6, 5, 4, 3, 2] 2
          Loader.perLoad).map Loader.GridEntry.card) ∧
    ((Loader.loadProjects (Loader.Fetch.ok [1, 2, 3]) Loader.perLoad
        Loader.initSt).grid =
      (Loader.sliceToLoad [1, 2, 3].reverse 0
        Loader.perLoad).map Loader.GridEntry.card) :=
  ⟨((c1_load_renders_next_slice
      { loaded := 2, all := [9, 8, 7, 6, 5, 4, 3, 2],
        grid := [Loader.GridEntry.card 9, Loader.GridEntry.card 8],
        loadMoreHidden := false, fetchCount := 1 } []).1
      (by decide) Loader.Fetch.err).1,
   ((c1_load_renders_next_slice Loader.initSt [1, 2, 3]).2 rfl).1⟩

/-- C8: whenever a loader invocation performs a fetch (the in-memory array is
empty) and the fetch fails with a non-success HTTP status, a network error or
a JSON parse error, the error is caught by the `catch` block — the load
functions are total — and the grid container's contents are replaced by the
error block with the retry button. -/
theorem c8_fetch_failure_replaces_grid (s : Loader.St) (count : Nat)
    (h : s.all = []) :
    (Loader.loadProjects Loader.Fetch.err count s).grid =
        [Loader.GridEntry.errorRetry] ∧
    (Loader.loadImages Loader.Fetch.err count s).grid =
        [Loader.GridEntry.errorRetry] := by
  have hempty : s.all.isEmpty = true := by simp [List.isEmpty_iff, h]
  simp [Loader.loadProjects, Loader.loadImages, hempty]

/-- C8 witness: a failing first load from the fresh page state leaves both
grids holding exactly the retry affordance. -/
theorem c8_fetch_failure_replaces_grid_witness :
    (Loader.loadProjects Loader.Fetch.err Loader.perLoad
        Loader.initSt).grid = [Loader.GridEntry.errorRetry] ∧
    (Loader.loadImages Loader.Fetch.err Loader.perLoad
        Loader.initSt).grid = [Loader.GridEntry.errorRetry] :=
  c8_fetch_failure_replaces_grid Loader.initSt Loader.perLoad rfl

/-- C5: the email field validator rejects `"foo@bar"` (the pattern does not
match) and accepts `"foo@bar.com"`. -/
theorem c5_email_examples :
    (ContactForm.validateField "email" "foo@bar").isValid = false ∧
    (ContactForm.validateField "email" "foo@bar.com").isValid = true := by
  decide

set_option maxRecDepth 20000 in
/-- C6: the message field validator rejects a trimmed value of length 9,
accepts one of length 10 and rejects one of length 1001, per the message
rule's minimum length 10 and maximum length 1000. -/
theorem c6_message_length_examples :
    (ContactForm.validateField "message"
        ⟨List.replicate 9 'a'⟩).isValid = false ∧
    (ContactForm.validateField "message"
        ⟨List.replicate 10 'a'⟩).isValid = true ∧
    (ContactForm.validateField "message"
        ⟨List.replicate 1001 'a'⟩).isValid = false := by
  decide

/-- C7: with sections `home` and `about` occupying vertical extents
`[0, 500)` and `[500, 1200)`, no navbar offset, and scroll position 600, the
scroll handler leaves exactly the second link (`#about`) with the active
class and removes it from the first (`#home`). -/
theorem c7_scroll_marks_second_link :
    (Nav.handleScroll 0 600
        [⟨"home", 0, 500⟩, ⟨"about", 500, 700⟩]
        [⟨"#home", true⟩, ⟨"#about", false⟩]).1 =
      [⟨"#home", false⟩, ⟨"#about", true⟩] := by
  decide

/-- C3: from any document state whose `data-theme` attribute is `'light'` or
absent, toggling the theme twice restores the original attribute, so the
toggle is an involution on the dark/light document state. -/
theorem c3_toggle_involution (s : Theme.ThemeState)
    (h : s.attr = some "light" ∨ s.attr = none) :
    (Theme.toggleTheme (Theme.toggleTheme s)).attr = s.attr := by
  rcases h with h | h <;>
    simp [Theme.toggleTheme, Theme.applyTheme, h]

/-- C3 witness: toggling twice from the light state restores the light
attribute. -/
theorem c3_toggle_involution_witness :
    (Theme.toggleTheme (Theme.toggleTheme
        ⟨some "light", none, "sun"⟩)).attr = some "light" :=
  c3_toggle_involution ⟨some "light", none, "sun"⟩ (Or.inl rfl)

/-- C4: in every state of the theme controller (including any state reached
after page-load theme resolution), an OS-level color-scheme change event
leaves the state untouched when a value is persisted under the theme key,
and applies the OS theme (attribute `light` set or absent, and that choice
persisted) when no value is persisted. -/
theorem c4_os_change_vs_persistence (s : Theme.ThemeState) (e : Bool) :
    (s.stored ≠ none → Theme.handleSystemThemeChange e s = s) ∧
    (s.stored = none →
      (Theme.handleSystemThemeChange e s).attr =
          (if e then some "light" else none) ∧
      (Theme.handleSystemThemeChange e s).stored =
          some (if e then "light" else "dark")) := by
  constructor
  · intro h
    simp [Theme.handleSystemThemeChange, h]
  · intro h
    cases e <;>
      simp [Theme.handleSystemThemeChange, Theme.applyTheme, h]

/-- C4 witness: with `'dark'` persisted, a change event towards light changes
nothing; with nothing persisted, a change event towards light applies and
persists the light theme. -/
theorem c4_os_change_vs_persistence_witness :
    Theme.handleSystemThemeChange true ⟨none, some "dark", "moon"⟩ =
        ⟨none, some "dark", "moon"⟩ ∧
    (Theme.handleSystemThemeChange true ⟨none, none, "moon"⟩).attr =
        some "light" :=
  ⟨(c4_os_change_vs_persistence ⟨none, some "dark", "moon"⟩ true).1
      (by simp),
   ((c4_os_change_vs_persistence ⟨none, none, "moon"⟩ true).2 rfl).1⟩

/-- C2 counterexample: with a static payload of seven records, the sequence
load, load-more, reload (every fetch successful) leaves the load-more control
hidden although only six of the seven records are loaded — `reload` never
re-shows the control — so hidden is not equivalent to loaded count equalling
total count. -/
theorem c2_counterexample :
    (Loader.runProjects [1, 2, 3, 4, 5, 6, 7]
        [Loader.Ev.load, Loader.Ev.loadMore,
          Loader.Ev.reload]).loadMoreHidden = true ∧
    ¬((Loader.runProjects [1, 2, 3, 4, 5, 6, 7]
        [Loader.Ev.load, Loader.Ev.loadMore, Loader.Ev.reload]).loaded =
      (Loader.runProjects [1, 2, 3, 4, 5, 6, 7]
        [Loader.Ev.load, Loader.Ev.loadMore,
          Loader.Ev.reload]).all.length) := by
  decide

/-- C2 amended: after any nonempty sequence of load, load-more and reload
invocations on the projects or gallery loader in which every fetch succeeds,
if the loaded count equals the total count of fetched records then the
load-more control is hidden. The converse direction of the original claim is
false: `reload` resets the counters without re-showing the control, so the
control can stay hidden while loaded count is below total count. -/
theorem c2_amended_complete_implies_hidden (server : List Nat)
    (evs : List Loader.Ev) (h : evs ≠ []) :
    ((Loader.runProjects server evs).loaded =
        (Loader.runProjects server evs).all.length →
      (Loader.runProjects server evs).loadMoreHidden = true) ∧
    ((Loader.runGallery server evs).loaded =
        (Loader.runGallery server evs).all.length →
      (Loader.runGallery server evs).loadMoreHidden = true) := by
  constructor
  · exact Loader.last_step_foldl (Loader.stepProjects server)
      (fun t => t.loaded = t.all.length → t.loadMoreHidden = true)
      (fun s e => by
        cases e <;>
          exact fun hc => Loader.loadProjects_ok_hidden_of_complete _ _ _ hc)
      evs Loader.initSt h
  · exact Loader.last_step_foldl (Loader.stepGallery server)
      (fun t => t.loaded = t.all.length → t.loadMoreHidden = true)
      (fun s e => by
        cases e <;>
          exact fun hc => Loader.loadImages_ok_hidden_of_complete _ _ _ hc)
      evs Loader.initSt h

/-- C2 amended witness: after a single load of a three-record payload all
records are loaded and the control is hidden, in both loaders. -/
theorem c2_amended_complete_implies_hidden_witness :
    (Loader.runProjects [1, 2, 3] [Loader.Ev.load]).loadMoreHidden = true ∧
    (Loader.runGallery [1, 2, 3] [Loader.Ev.load]).loadMoreHidden = true :=
  ⟨(c2_amended_complete_implies_hidden [1, 2, 3] [Loader.Ev.load]
      (by simp)).1 (by decide),
   (c2_amended_complete_implies_hidden [1, 2, 3] [Loader.Ev.load]
      (by simp)).2 (by decide)⟩

/-- C9 counterexample: when the fetched payload's array is empty, the
in-memory array stays empty, so the guard `allProjects.length === 0`
(`allImages.length === 0`) makes every invocation fetch again: two successful
load invocations perform two fetches in each loader, refuting "fetched at
most once ... including when the fetched payload's array is empty". -/
theorem c9_counterexample :
    (Loader.runProjects [] [Loader.Ev.load, Loader.Ev.load]).fetchCount = 2 ∧
    (Loader.runGallery [] [Loader.Ev.load, Loader.Ev.load]).fetchCount = 2 := by
  decide

/-- C9 amended: within one page session without reload, and with a nonempty
fetched payload, the static JSON resource is fetched exactly once — only the
first invocation fetches and later invocations render from the in-memory
array; when the payload's array is empty, however, every invocation performs
a fetch. -/
theorem c9_amended_fetch_once (server : List Nat) (evs : List Loader.Ev)
    (hserver : server ≠ []) (hevs : evs ≠ [])
    (hnr : Loader.Ev.reload ∉ evs) :
    (Loader.runProjects server evs).fetchCount = 1 ∧
    (Loader.runGallery server evs).fetchCount = 1 ∧
    ∀ evs2 : List Loader.Ev,
      (Loader.runProjects [] evs2).fetchCount = evs2.length ∧
      (Loader.runGallery [] evs2).fetchCount = evs2.length := by
  refine ⟨?_, ?_, ?_⟩
  · cases evs with
    | nil => exact absurd rfl hevs
    | cons e t =>
        rw [List.mem_cons] at hnr
        push_neg at hnr
        obtain ⟨hne, hnr'⟩ := hnr
        have hfirst : (Loader.stepProjects server Loader.initSt e).all =
              server.reverse ∧
            (Loader.stepProjects server Loader.initSt e).fetchCount = 1 := by
          cases e with
          | reload => exact absurd rfl (Ne.symm hne)
          | load =>
              simp [Loader.stepProjects, Loader.loadProjects, Loader.initSt,
                Loader.renderAndHide]
          | loadMore =>
              simp [Loader.stepProjects, Loader.loadProjects, Loader.initSt,
                Loader.renderAndHide]
        obtain ⟨h1, h2⟩ := hfirst
        have hrev : server.reverse ≠ [] := by
          simp [hserver]
        have := (Loader.noReload_run_projects server server.reverse hrev t
          hnr' (Loader.stepProjects server Loader.initSt e) h1).2
        unfold Loader.runProjects
        rw [List.foldl_cons, this, h2]
  · cases evs with
    | nil => exact absurd rfl hevs
    | cons e t =>
        rw [List.mem_cons] at hnr
        push_neg at hnr
        obtain ⟨hne, hnr'⟩ := hnr
        have hfirst : (Loader.stepGallery server Loader.initSt e).all =
              server ∧
            (Loader.stepGallery server Loader.initSt e).fetchCount = 1 := by
          cases e with
          | reload => exact absurd rfl (Ne.symm hne)
          | load =>
              simp [Loader.stepGallery, Loader.loadImages, Loader.initSt,
                Loader.renderAndHide]
          | loadMore =>
              simp [Loader.stepGallery, Loader.loadImages, Loader.initSt,
                Loader.renderAndHide]
        obtain ⟨h1, h2⟩ := hfirst
        have := (Loader.noReload_run_gallery server server hserver t
          hnr' (Loader.stepGallery server Loader.initSt e) h1).2
        unfold Loader.runGallery
        rw [List.foldl_cons, this, h2]
  · intro evs2
    refine ⟨?_, ?_⟩
    · have := (Loader.empty_payload_run_projects evs2 Loader.initSt rfl).2
      unfold Loader.runProjects
      rw [this]
      simp [Loader.initSt]
    · have := (Loader.empty_payload_run_gallery evs2 Loader.initSt rfl).2
      unfold Loader.runGallery
      rw [this]
      simp [Loader.initSt]

/-- C9 amended witness: with a one-record payload, the two-invocation
sequence load then load-more performs exactly one fetch in each loader, and
with an empty payload the same sequence performs two. -/
theorem c9_amended_fetch_once_witness :
    (Loader.runProjects [5] [Loader.Ev.load,
        Loader.Ev.loadMore]).fetchCount = 1 ∧
    (Loader.runGallery [5] [Loader.Ev.load,
        Loader.Ev.loadMore]).fetchCount = 1 ∧
    (Loader.runProjects [] [Loader.Ev.load,
        Loader.Ev.loadMore]).fetchCount = 2 :=
  have h := c9_amended_fetch_once [5]
    [Loader.Ev.load, Loader.Ev.loadMore] (by simp) (by simp) (by decide)
  ⟨h.1, h.2.1,
    by rw [(h.2.2 [Loader.Ev.load, Loader.Ev.loadMore]).1]; rfl⟩

/-- C10: validation operates on the whitespace-trimmed value: for every field
that has a required rule, a value consisting only of whitespace fails with
the capitalized `is required` message, and the whole validation result of any
value coincides with that of its trimmed value, so surrounding whitespace
never influences the length or pattern checks. -/
theorem c10_validation_trims (fieldName value : String) :
    (∀ rules, ContactForm.validationRules fieldName = some rules →
      rules.required = true →
      value.data.all Portfolio.isJsWhitespace = true →
      ContactForm.validateField fieldName value =
        ⟨false, ContactForm.capitalize fieldName ++ " is required"⟩) ∧
    ContactForm.validateField fieldName value =
      ContactForm.validateField fieldName (ContactForm.jsTrim value) := by
  constructor
  · intro rules hrules hreq hws
    simp [ContactForm.validateField, hrules, hreq,
      ContactForm.jsTrim_eq_empty value hws]
  · simp only [ContactForm.validateField, ContactForm.jsTrim_idem]

/-- C10 witness: a whitespace-only message fails as required with the
capitalized message, and validating a padded message equals validating its
trimmed form. -/
theorem c10_validation_trims_witness :
    ContactForm.validateField "message" "   " =
        ⟨false, ContactForm.capitalize "message" ++ " is required"⟩ ∧
    ContactForm.validateField "message" "  hello there  " =
        ContactForm.validateField "message"
          (ContactForm.jsTrim "  hello there  ") :=
  ⟨(c10_validation_trims "message" "   ").1 ContactForm.messageRules
      rfl rfl (by decide),
   (c10_validation_trims "message" "  hello there  ").2⟩

end Portfolio
